import Mathlib

/-!
# Verification of the rusk consensus core against its specification

Shallow embedding of the consensus certificate registry
(`consensus/src/step_votes_reg.rs`), the vote-casting task and quorum
sender (`consensus/src/commons.rs`), the proposal handler
(`consensus/src/proposal/handler.rs`), the header validator
(`node/src/chain/header_validation.rs`), the chain FSM InSync
block-event branch (`node/src/chain/fsm.rs`) and the mempool admission
path (`node/src/mempool.rs`).

Byte arrays (`[u8; 32]` hashes, `[u8; 48]` signatures, `[u8; 96]` keys)
are represented by `Nat` through an injective encoding; the code under
scrutiny only ever compares them for equality, so the embedding is
faithful.  `u8` arithmetic is modelled on `Nat` with explicit `% 256`
wrapping where the source performs `u8` arithmetic.  External
cryptography (BLS signing and verification, merkle roots) and injected
capabilities (database views, the VM) are passed in as explicit function
parameters, so every definition stays executable.
-/

namespace Rusk

/-- Hash values (`[u8; 32]` in the source, compared only for equality). -/
abbrev Hash := Nat

/-- The zero hash `[0u8; 32]`. -/
def zeroHash : Hash := 0

/-- BLS public key bytes (`PublicKeyBytes`, compared only for equality). -/
abbrev PublicKeyBytes := Nat

/-- BLS secret key (opaque, only fed to the signing oracle). -/
abbrev SecretKey := Nat

/-- Wrapping `u8` addition (release-mode Rust semantics). -/
def u8Add (a b : Nat) : Nat := (a + b) % 256

/-- Wrapping `u8` subtraction (release-mode Rust semantics), defined for
`a, b < 256`. -/
def u8Sub (a b : Nat) : Nat := (a + 256 - b % 256) % 256

/-- Modelled from the spec: `node_data::message::payload::Vote` is not
under `src/`.  "Vote. Tagged variant: `Valid(hash)`, `Invalid(hash)`,
`NoCandidate`." -/
inductive Vote where
  | NoCandidate : Vote
  | Valid (hash : Hash) : Vote
  | Invalid (hash : Hash) : Vote
deriving DecidableEq, Repr

/-- Modelled from the spec: the `Default` vote used for the nil slot is
`NoCandidate` (the vote cast when no candidate is received). -/
instance : Inhabited Vote := ⟨Vote.NoCandidate⟩

/-- Modelled from the spec: `node_data::ledger::StepVotes` is not under
`src/`.  "StepVotes. Aggregated BLS signature plus a bitset over the
committee (one bit per seat).  Empty if no votes collected." -/
structure StepVotes where
  aggregate_signature : Nat
  bitset : Nat
deriving DecidableEq, Repr

instance : Inhabited StepVotes := ⟨⟨0, 0⟩⟩

/-- Modelled from the spec: a `StepVotes` is empty when no votes were
collected, i.e. no committee bit is set. -/
def StepVotes.is_empty (sv : StepVotes) : Bool := sv.bitset == 0

/-- Embedding of `node_data::ledger::Certificate`: the pair of step-votes aggregated by
the registry (`cert.validation` / `cert.ratification` in
`step_votes_reg.rs`). -/
structure Certificate where
  validation : StepVotes
  ratification : StepVotes
deriving DecidableEq, Repr

instance : Inhabited Certificate := ⟨⟨default, default⟩⟩

/-- Embedding of `SvType` from `consensus/src/step_votes_reg.rs`. -/
inductive SvType where
  | Validation : SvType
  | Ratification : SvType
deriving DecidableEq, Repr

/-- Embedding of `CertificateInfo` from `consensus/src/step_votes_reg.rs`. -/
structure CertificateInfo where
  vote : Vote
  cert : Certificate
  quorum_reached_validation : Bool
  quorum_reached_ratification : Bool
deriving DecidableEq, Repr

instance : Inhabited CertificateInfo := ⟨⟨default, default, false, false⟩⟩

/-- Embedding of `CertificateInfo::has_votes`: `true` if the certificate contains at
least one vote in both step-votes fields. -/
def CertificateInfo.has_votes (c : CertificateInfo) : Bool :=
  !c.cert.validation.is_empty && !c.cert.ratification.is_empty

/-- Embedding of `CertificateInfo::is_ready`: all fields non-empty and quorum reached
for both validation and ratification. -/
def CertificateInfo.is_ready (c : CertificateInfo) : Bool :=
  c.has_votes && c.quorum_reached_validation && c.quorum_reached_ratification

/-- Embedding of `CertificateInfo::add_sv`: writes the step-votes into the
corresponding certificate field, raises the matching quorum flag when
`quorum_reached` holds, and reports `is_ready` of the updated info.
Returns the updated info together with the `bool` the Rust method
returns. -/
def CertificateInfo.add_sv (c : CertificateInfo) (_iter : Nat)
    (sv : StepVotes) (svt : SvType) (quorum_reached : Bool) :
    CertificateInfo × Bool :=
  let c' :=
    match svt with
    | SvType.Validation =>
        { c with
          cert := { c.cert with validation := sv }
          quorum_reached_validation :=
            if quorum_reached then true else c.quorum_reached_validation }
    | SvType.Ratification =>
        { c with
          cert := { c.cert with ratification := sv }
          quorum_reached_ratification :=
            if quorum_reached then true else c.quorum_reached_ratification }
  (c', c'.is_ready)

/-- The two slots of an `IterationCerts` entry. -/
inductive Slot where
  | nilSlot : Slot
  | validSlot : Slot
deriving DecidableEq, Repr

/-- Embedding of `IterationCerts` from `consensus/src/step_votes_reg.rs`. -/
structure IterationCerts where
  valid : Option CertificateInfo
  nil : CertificateInfo
  generator : PublicKeyBytes
deriving DecidableEq, Repr

/-- Embedding of `IterationCerts::new`. -/
def IterationCerts.new (generator : PublicKeyBytes) : IterationCerts :=
  { valid := none, nil := default, generator := generator }

/-- Embedding of `IterationCerts::for_vote`.  The Rust method hands back a mutable
reference to the chosen slot, inserting a fresh `CertificateInfo` bound
to `vote` when the `valid` slot is vacant; here it returns the chosen
slot together with the (possibly extended) entry, or `none` when the
`valid` slot is occupied by a different vote. -/
def IterationCerts.for_vote (ic : IterationCerts) (vote : Vote) :
    Option (Slot × IterationCerts) :=
  if vote = Vote.NoCandidate then
    some (Slot.nilSlot, ic)
  else
    match ic.valid with
    | none =>
        some (Slot.validSlot,
          { ic with valid := some { (default : CertificateInfo) with vote := vote } })
    | some cert =>
        if cert.vote = vote then some (Slot.validSlot, ic) else none

/-- Reads the slot chosen by `for_vote` (the `valid` slot is only read
after `for_vote` has populated it; a vacant slot reads as default). -/
def IterationCerts.slotGet (ic : IterationCerts) : Slot → CertificateInfo
  | Slot.nilSlot => ic.nil
  | Slot.validSlot => ic.valid.getD default

/-- Writes back through the mutable reference `for_vote` produced. -/
def IterationCerts.slotSet (ic : IterationCerts) (s : Slot)
    (c : CertificateInfo) : IterationCerts :=
  match s with
  | Slot.nilSlot => { ic with nil := c }
  | Slot.validSlot => { ic with valid := some c }

/-- Embedding of `node_data::message::ConsensusHeader` as constructed by
`build_quorum_msg`. -/
structure ConsensusHeader where
  pubkey_bls : PublicKeyBytes
  prev_block_hash : Hash
  round : Nat
  iteration : Nat
  signature : Nat
deriving DecidableEq, Repr

/-- Embedding of `RoundUpdate` from `consensus/src/commons.rs` (the fields the
embedded functions read). -/
structure RoundUpdate where
  round : Nat
  pubkey_bls : PublicKeyBytes
  secret_key : SecretKey
  seed : Nat
  hash : Hash
  timestamp : Int
  cert : Certificate
deriving DecidableEq, Repr

/-- Embedding of `payload::Quorum` with the signature produced by `Quorum::sign`. -/
structure QuorumPayload where
  header : ConsensusHeader
  vote : Vote
  validation : StepVotes
  ratification : StepVotes
  signature : Nat
deriving DecidableEq, Repr

/-- The BLS signing oracle used by `payload.sign` in `build_quorum_msg`:
it signs the payload data with the secret key. -/
abbrev SignFn :=
  SecretKey → ConsensusHeader → Vote → StepVotes → StepVotes → Nat

/-- Embedding of `node_data::message::Topics` (the topics the embedded code names). -/
inductive Topics where
  | Quorum : Topics
  | Validation : Topics
  | Candidate : Topics
  | Other : Topics
deriving DecidableEq, Repr

/-- Embedding of `node_data::message::Header` as constructed in `spawn_cast_vote`. -/
structure MsgHeader where
  pubkey_bls : PublicKeyBytes
  round : Nat
  step : Nat
  block_hash : Hash
  topic : Topics
deriving DecidableEq, Repr

/-- Embedding of `payload::Validation` (the signed reduction payload). -/
structure ValidationPayload where
  signature : Nat
deriving DecidableEq, Repr

/-- Message payloads the embedded code constructs or inspects. -/
inductive Payload where
  | Quorum (q : QuorumPayload) : Payload
  | Validation (v : ValidationPayload) : Payload
  | Empty : Payload
deriving DecidableEq, Repr

/-- Embedding of `node_data::message::Message` restricted to the fields the embedded
code reads (`header.block_hash` in `QuorumMsgSender::send`, the payload
everywhere else). -/
structure Message where
  header : MsgHeader
  payload : Payload
deriving DecidableEq, Repr

/-- The block hash a vote targets (zero for `NoCandidate`). -/
def voteTargetHash : Vote → Hash
  | Vote.NoCandidate => zeroHash
  | Vote.Valid h => h
  | Vote.Invalid h => h

/-- Modelled from the spec: `Message::new_quorum` lives in `node_data`,
not under `src/`.  Per the spec a consensus message carries the
payload's consensus fields, and a quorum for a `NoCandidate` outcome
carries the zero block hash, so the wire header copies pubkey, round and
iteration from the payload header and keys the message by the vote's
target hash. -/
def Message.new_quorum (p : QuorumPayload) : Message :=
  { header :=
      { pubkey_bls := p.header.pubkey_bls
        round := p.header.round
        step := p.header.iteration
        block_hash := voteTargetHash p.vote
        topic := Topics.Quorum }
    payload := Payload.Quorum p }

/-- Embedding of `Message::new_validation`. -/
def Message.new_validation (hdr : MsgHeader) (v : ValidationPayload) :
    Message :=
  { header := hdr, payload := Payload.Validation v }

/-- Embedding of `CertInfoRegistry` from `consensus/src/step_votes_reg.rs`; the
`HashMap<u8, IterationCerts>` is modelled as a map from iteration to an
optional entry. -/
structure CertInfoRegistry where
  ru : RoundUpdate
  cert_list : Nat → Option IterationCerts

/-- Embedding of `HashMap::insert` on the modelled `cert_list`. -/
def mapInsert (m : Nat → Option IterationCerts) (k : Nat)
    (v : IterationCerts) : Nat → Option IterationCerts :=
  fun k' => if k' = k then some v else m k'

/-- Embedding of `CertInfoRegistry::new`. -/
def CertInfoRegistry.new (ru : RoundUpdate) : CertInfoRegistry :=
  { ru := ru, cert_list := fun _ => none }

/-- The consensus header `build_quorum_msg` assembles (with the default
zero signature, before `payload.sign`). -/
def quorumHeader (ru : RoundUpdate) (iteration : Nat) : ConsensusHeader :=
  { pubkey_bls := ru.pubkey_bls
    prev_block_hash := ru.hash
    round := ru.round
    iteration := iteration
    signature := 0 }

/-- Embedding of `CertInfoRegistry::build_quorum_msg`: assembles the quorum payload
from the certificate info, signs it with the round secret key, and wraps
it in a message. -/
def CertInfoRegistry.build_quorum_msg (signF : SignFn) (ru : RoundUpdate)
    (iteration : Nat) (result : CertificateInfo) : Message :=
  let header := quorumHeader ru iteration
  let payload : QuorumPayload :=
    { header := header
      vote := result.vote
      validation := result.cert.validation
      ratification := result.cert.ratification
      signature :=
        signF ru.secret_key header result.vote result.cert.validation
          result.cert.ratification }
  Message.new_quorum payload

/-- Embedding of `CertInfoRegistry::add_step_votes`: selects (or creates) the
iteration entry, routes the vote to a slot via `for_vote`, writes the
step-votes with `add_sv`, and returns a freshly signed quorum message
when the slot became ready.  Returns the updated registry together with
the optional message. -/
def CertInfoRegistry.add_step_votes (signF : SignFn)
    (r : CertInfoRegistry) (iteration : Nat) (vote : Vote)
    (sv : StepVotes) (svt : SvType) (quorum_reached : Bool)
    (generator : PublicKeyBytes) : CertInfoRegistry × Option Message :=
  let entry := (r.cert_list iteration).getD (IterationCerts.new generator)
  match entry.for_vote vote with
  | none =>
      ({ r with cert_list := mapInsert r.cert_list iteration entry }, none)
  | some (slot, entry') =>
      let c := entry'.slotGet slot
      let res := c.add_sv iteration sv svt quorum_reached
      let entry'' := entry'.slotSet slot res.1
      ({ r with cert_list := mapInsert r.cert_list iteration entry'' },
        if res.2 then
          some (CertInfoRegistry.build_quorum_msg signF r.ru iteration res.1)
        else none)

/-- Embedding of `ConsensusError` from `consensus/src/commons.rs`. -/
inductive ConsensusError where
  | InvalidBlock : ConsensusError
  | InvalidBlockHash : ConsensusError
  | InvalidSignature : ConsensusError
  | InvalidMsgType : ConsensusError
  | FutureEvent : ConsensusError
  | PastEvent : ConsensusError
  | NotCommitteeMember : ConsensusError
  | NotImplemented : ConsensusError
  | NotReady : ConsensusError
  | MaxIterationReached : ConsensusError
  | ChildTaskTerminated : ConsensusError
  | Canceled : ConsensusError
deriving DecidableEq, Repr

/-- Embedding of `<u8 as IterCounter>::next` from `consensus/src/commons.rs`: computes
the incremented `u8` counter, fails with `MaxIterationReached` when it
reaches `CONSENSUS_MAX_ITER` (the configured maximum, passed in because
`config.rs` is not under `src/`), and otherwise commits the increment.
Returns the updated counter together with the result. -/
def iterCounterNext (maxIter : Nat) (c : Nat) :
    Nat × Except ConsensusError Nat :=
  let next := u8Add c 1
  if maxIter ≤ next then
    (c, Except.error ConsensusError.MaxIterationReached)
  else
    (next, Except.ok next)

/-- Embedding of `RatificationResult` from `node_data::message::payload`; modelled
from the spec: "a `result` that is either `Success(Vote::Valid(h))` or
`Fail(reason)`". -/
inductive RatificationResult where
  | Success (v : Vote) : RatificationResult
  | Fail (reason : Nat) : RatificationResult
deriving DecidableEq, Repr

/-- Embedding of `node_data::ledger::Attestation`: result plus the two step-votes
aggregates. -/
structure Attestation where
  result : RatificationResult
  validation : StepVotes
  ratification : StepVotes
deriving DecidableEq, Repr

/-- Embedding of `node_data::ledger::Transaction` restricted to what the embedded
code reads: its id (= hash), its spend-ids and its gas price. -/
structure Transaction where
  id : Nat
  spend_ids : List Nat
  gas_price : Nat
deriving DecidableEq, Repr

/-- Embedding of `node_data::ledger::Header` restricted to the fields the embedded
code reads. -/
structure BlockHeader where
  version : Nat
  height : Nat
  timestamp : Int
  hash : Hash
  prev_block_hash : Hash
  state_hash : Hash
  event_hash : Hash
  txroot : Hash
  gas_limit : Nat
  generator_bls_pubkey : PublicKeyBytes
  iteration : Nat
  failed_iterations : List (Option (Attestation × PublicKeyBytes))
deriving DecidableEq, Repr

/-- Embedding of `node_data::ledger::Block`. -/
structure Block where
  header : BlockHeader
  txs : List Transaction
deriving DecidableEq, Repr

/-- Embedding of `VerificationOutput` returned by the VM's `verify_state_transition`. -/
structure VerificationOutput where
  state_root : Hash
  event_hash : Hash
deriving DecidableEq, Repr

/-- The body of the task spawned by `spawn_cast_vote` in
`consensus/src/commons.rs`, as a pure function of its decision inputs:
the round's `verified_hash`, the candidate, the voter identity, the
outcome of decoding the generator key (external crypto) and the outcome
of the VM's `verify_state_transition` call (injected capability).  It
returns the new `verified_hash` guard value together with the validation
message the task publishes to outbound and self-delivers to inbound, or
`none` when the task returns early without casting any vote.
`hdrSign` is the BLS oracle behind `hdr.sign`. -/
def spawnCastVoteTask (hdrSign : SecretKey → MsgHeader → Nat)
    (verified_hash : Hash) (candidate : Block) (pubkey : PublicKeyBytes)
    (ru : RoundUpdate) (step : Nat) (topic : Topics)
    (decode_generator_ok : Bool)
    (vst : Except Unit VerificationOutput) : Hash × Option Message :=
  let hash := candidate.header.hash
  let already_verified := verified_hash = hash
  let castIt : Hash × Option Message :=
    let hdr : MsgHeader :=
      { pubkey_bls := pubkey
        round := ru.round
        step := step
        block_hash := hash
        topic := topic }
    let signature := hdrSign ru.secret_key hdr
    (hash, some (Message.new_validation hdr { signature := signature }))
  if ¬already_verified ∧ hash ≠ zeroHash then
    if ¬decode_generator_ok then
      (verified_hash, none)
    else
      match vst with
      | Except.ok verification_output =>
          if verification_output.event_hash ≠ candidate.header.event_hash then
            (verified_hash, none)
          else if verification_output.state_root ≠ candidate.header.state_hash
          then
            (verified_hash, none)
          else
            castIt
      | Except.error _ =>
          (verified_hash, none)
  else
    castIt

/-- Embedding of `QuorumMsgSender::send` from `consensus/src/commons.rs`: forwards a
quorum message to the internal quorum queue unless its signature is
zero, one of its step-votes is empty, or the message's block hash is the
zero hash; non-quorum payloads are never forwarded.  The queue is
modelled as the list of messages sent so far; returns the updated queue
with the boolean the Rust method returns. -/
def quorumMsgSenderSend (queue : List Message) (msg : Message) :
    List Message × Bool :=
  match msg.payload with
  | Payload.Quorum q =>
      if q.signature = 0 ∨ q.validation.is_empty ∨ q.ratification.is_empty ∨
          msg.header.block_hash = zeroHash then
        (queue, false)
      else
        (queue ++ [msg], true)
  | _ => (queue, false)

/-- Embedding of `payload::Candidate` as inspected by the proposal handler. -/
structure CandidatePayload where
  candidate : Block
deriving DecidableEq, Repr

/-- The proposal handler's view of an incoming message
(`consensus/src/proposal/handler.rs`): the wire header plus either a
candidate payload or something else. -/
inductive ProposalPayload where
  | Candidate (c : CandidatePayload) : ProposalPayload
  | Other : ProposalPayload
deriving DecidableEq, Repr

/-- An incoming proposal-phase message. -/
structure ProposalMessage where
  pubkey_bls : PublicKeyBytes
  prev_block_hash : Hash
  payload : ProposalPayload
deriving DecidableEq, Repr

/-- Embedding of `ProposalHandler::verify_new_block` from
`consensus/src/proposal/handler.rs`.  `sigOk` is the external BLS check
behind `p.verify_signature()` (signature over the block header by the
declared generator), `merkleRoot` the external `merkle_root` function,
and `isMember` the committee membership test (`committee.is_member`). -/
def verify_new_block (sigOk : CandidatePayload → Bool)
    (merkleRoot : List Hash → Hash) (isMember : PublicKeyBytes → Bool)
    (msg : ProposalMessage) : Except ConsensusError Unit :=
  match msg.payload with
  | ProposalPayload.Other => Except.error ConsensusError.InvalidMsgType
  | ProposalPayload.Candidate p =>
      if ¬sigOk p then
        Except.error ConsensusError.InvalidSignature
      else if msg.prev_block_hash ≠ p.candidate.header.prev_block_hash then
        Except.error ConsensusError.InvalidBlockHash
      else if merkleRoot (p.candidate.txs.map (·.id)) ≠
          p.candidate.header.txroot then
        Except.error ConsensusError.InvalidBlock
      else if ¬isMember msg.pubkey_bls then
        Except.error ConsensusError.NotCommitteeMember
      else
        Except.ok ()

/-- Whether a `RatificationResult` is a `Success`. -/
def RatificationResult.isSuccess : RatificationResult → Bool
  | RatificationResult.Success _ => true
  | RatificationResult.Fail _ => false

/-- The loop of `Validator::verify_failed_iterations`
(`node/src/chain/header_validation.rs`), accumulating the `u8`
`failed_atts` counter over the enumerated `failed_iterations` slots.
`gen` is `provisioners.current().get_generator(iter, prev.seed, height)`
and `ratQuorum` the ratification `QuorumResult::quorum_reached` outcome
of the external `verify_block_att` call for the given slot (its
signature checks live outside `src/`); `ratQuorum` returns an error when
`verify_block_att` fails. -/
def vfiLoop (gen : Nat → PublicKeyBytes)
    (ratQuorum : Nat → Attestation → Except Unit Bool) (idx : Nat)
    (failed_atts : Nat) :
    List (Option (Attestation × PublicKeyBytes)) → Except Unit Nat
  | [] => Except.ok failed_atts
  | none :: rest => vfiLoop gen ratQuorum (idx + 1) failed_atts rest
  | some (att, pk) :: rest =>
      if att.result.isSuccess then Except.error ()
      else if pk ≠ gen idx then Except.error ()
      else
        match ratQuorum idx att with
        | Except.error _ => Except.error ()
        | Except.ok reached =>
            vfiLoop gen ratQuorum (idx + 1)
              (if reached then u8Add failed_atts 1 else failed_atts) rest

/-- Embedding of `Validator::verify_failed_iterations`: walks the header's
`failed_iterations` list, counting the populated slots whose
ratification sub-attestation reaches quorum, and returns
`block.iteration - failed_atts` computed in `u8` arithmetic. -/
def verify_failed_iterations (gen : Nat → PublicKeyBytes)
    (ratQuorum : Nat → Attestation → Except Unit Bool)
    (candidate_block : BlockHeader) : Except Unit Nat :=
  match vfiLoop gen ratQuorum 0 0 candidate_block.failed_iterations with
  | Except.error e => Except.error e
  | Except.ok failed_atts =>
      Except.ok (u8Sub candidate_block.iteration failed_atts)

/-- The number of populated `failed_iterations` slots whose ratification
quorum oracle answers `true` (the mathematical count `vfiLoop`
accumulates in `u8`). -/
def quorumCount (ratQuorum : Nat → Attestation → Except Unit Bool)
    (idx : Nat) : List (Option (Attestation × PublicKeyBytes)) → Nat
  | [] => 0
  | none :: rest => quorumCount ratQuorum (idx + 1) rest
  | some (att, _) :: rest =>
      (match ratQuorum idx att with
        | Except.ok true => 1
        | _ => 0) +
        quorumCount ratQuorum (idx + 1) rest

/-- The ledger view the InSync block handler reads
(`node/src/chain/fsm.rs`): block existence by hash, header fetch by
hash, block fetch by height (all injected database capabilities). -/
structure LedgerView where
  get_block_exists : Hash → Bool
  fetch_block_header : Hash → Option BlockHeader
  fetch_block_by_height : Nat → Option Block

/-- The `remote_height < local_header.height` branch of
`InSyncImpl::on_block_event` (`node/src/chain/fsm.rs`, lines 511-587):
decides whether a fallback is attempted for a remote block below the
local tip.  Returns `some (l_b_header, state_hash)` — the local header
passed to `fallback::WithContext::try_revert` together with the revert
target `prev_header.state_hash` — exactly when the code reaches the
`try_revert` call; `none` means the block is ignored and local state is
untouched. -/
def insyncBelowTipFallback (db : LedgerView) (final_height : Nat)
    (remote_blk : BlockHeader) : Option (BlockHeader × Hash) :=
  if db.get_block_exists remote_blk.hash then none
  else if remote_blk.height ≤ final_height then none
  else
    match db.fetch_block_header remote_blk.prev_block_hash with
    | none => none
    | some prev_header =>
        let local_height := prev_header.height + 1
        match db.fetch_block_by_height local_height with
        | none => none
        | some l_b =>
            if remote_blk.iteration < l_b.header.iteration then
              some (l_b.header, prev_header.state_hash)
            else none

/-- Embedding of `TxAcceptanceError` from `node/src/mempool.rs`. -/
inductive TxAcceptanceError where
  | AlreadyExistsInMempool : TxAcceptanceError
  | AlreadyExistsInLedger : TxAcceptanceError
  | SpendIdExistsInMempool : TxAcceptanceError
  | VerificationFailed : TxAcceptanceError
  | MaxTxnCountExceeded (count : Nat) : TxAcceptanceError
deriving DecidableEq, Repr

/-- Embedding of `TransactionEvent` emissions of the mempool service. -/
inductive TxEvent where
  | Removed (id : Nat) : TxEvent
  | Included (id : Nat) : TxEvent
deriving DecidableEq, Repr

/-- The mempool database state: the mempool transactions in index
iteration order, and the set of transaction ids in the ledger. -/
structure MempoolDB where
  mempool : List Transaction
  ledger_tx_ids : List Nat
deriving DecidableEq, Repr

/-- Embedding of `Mempool::get_txs_by_spendable_ids`: ids of mempool transactions
covering one of the given spend-ids. -/
def MempoolDB.get_txs_by_spendable_ids (db : MempoolDB)
    (spend_ids : List Nat) : List Nat :=
  (db.mempool.filter (fun t => t.spend_ids.any (fun s => spend_ids.contains s))).map
    (·.id)

/-- Embedding of `Mempool::get_tx`. -/
def MempoolDB.get_tx (db : MempoolDB) (id : Nat) : Option Transaction :=
  db.mempool.find? (fun t => t.id = id)

/-- Embedding of `Mempool::delete_tx`: removes the transaction, reporting whether it
was present. -/
def MempoolDB.delete_tx (db : MempoolDB) (id : Nat) :
    MempoolDB × Bool :=
  ({ db with mempool := db.mempool.filter (fun t => ¬t.id = id) },
    db.mempool.any (fun t => t.id = id))

/-- The spend-id conflict loop of `MempoolSrv::accept_tx`: for each
incumbent covering one of the new transaction's spend-ids, delete it
when its gas price is strictly below the new one (emitting `Removed`),
otherwise abort with `SpendIdExistsInMempool`. -/
def spendIdLoop (tx : Transaction) :
    List Nat → MempoolDB → List TxEvent →
    Except TxAcceptanceError (MempoolDB × List TxEvent)
  | [], db, events => Except.ok (db, events)
  | m_tx_id :: rest, db, events =>
      match db.get_tx m_tx_id with
      | none => spendIdLoop tx rest db events
      | some m_tx =>
          if m_tx.gas_price < tx.gas_price then
            let del := db.delete_tx m_tx_id
            spendIdLoop tx rest del.1
              (if del.2 then events ++ [TxEvent.Removed m_tx_id] else events)
          else
            Except.error TxAcceptanceError.SpendIdExistsInMempool

/-- Embedding of `MempoolSrv::accept_tx` (`node/src/mempool.rs`): count, duplicate
and ledger checks, VM `preverify`, spend-id conflict resolution, then
persistence.  The `update` closure is transactional: on error nothing is
persisted and no event is emitted, so the error case returns only the
error.  `preverify` is the injected VM capability. -/
def accept_tx (preverify : Transaction → Bool)
    (max_mempool_txn_count : Nat) (db : MempoolDB) (tx : Transaction) :
    Except TxAcceptanceError (MempoolDB × List TxEvent) :=
  let count := db.mempool.length
  if max_mempool_txn_count ≤ count then
    Except.error (TxAcceptanceError.MaxTxnCountExceeded count)
  else if db.mempool.any (fun t => t.id = tx.id) then
    Except.error TxAcceptanceError.AlreadyExistsInMempool
  else if db.ledger_tx_ids.contains tx.id then
    Except.error TxAcceptanceError.AlreadyExistsInLedger
  else if ¬preverify tx then
    Except.error TxAcceptanceError.VerificationFailed
  else
    match spendIdLoop tx (db.get_txs_by_spendable_ids tx.spend_ids) db [] with
    | Except.error e => Except.error e
    | Except.ok (db', events) =>
        Except.ok
          ({ db' with mempool := db'.mempool ++ [tx] },
            events ++ [TxEvent.Included tx.id])

/-- A VM verification outcome that must make the validation voter
reject the candidate: the call errored, or its `event_hash` or
`state_root` differs from the candidate header's fields. -/
def vstRejects (cand : Block) : Except Unit VerificationOutput → Prop
  | Except.error _ => True
  | Except.ok vo =>
      ¬vo.event_hash = cand.header.event_hash ∨
        ¬vo.state_root = cand.header.state_hash

/-! Concrete instances used by witnesses and counterexamples -/

/-- A trivial BLS quorum-signing oracle for concrete runs. -/
def signF0 : SignFn := fun _ _ _ _ _ => 1

/-- A trivial header-signing oracle for concrete runs. -/
def hdrSign0 : SecretKey → MsgHeader → Nat := fun _ _ => 1

/-- A concrete round context for concrete runs. -/
def ru0 : RoundUpdate :=
  { round := 1, pubkey_bls := 10, secret_key := 11, seed := 0, hash := 5
    timestamp := 0, cert := default }

/-- A non-empty step-votes aggregate. -/
def svNE : StepVotes := { aggregate_signature := 7, bitset := 3 }

/-- A block header with small concrete fields, for concrete runs. -/
def hdr0 : BlockHeader :=
  { version := 0, height := 1, timestamp := 0, hash := 3
    prev_block_hash := 4, state_hash := 0, event_hash := 0
    txroot := 0, gas_limit := 0, generator_bls_pubkey := 9
    iteration := 0, failed_iterations := [] }

/-- Concrete candidate payload for the C9 witness. -/
def c9p : CandidatePayload := { candidate := { header := hdr0, txs := [] } }

/-- Concrete proposal message carrying `c9p`. -/
def c9msg : ProposalMessage :=
  { pubkey_bls := 9, prev_block_hash := 4
    payload := ProposalPayload.Candidate c9p }

/-- Incumbent mempool transaction for the C7 witness. -/
def c7m : Transaction := { id := 1, spend_ids := [5], gas_price := 5 }

/-- Replacing transaction for the C7 witness (same spend-id, higher gas
price). -/
def c7tx : Transaction := { id := 2, spend_ids := [5], gas_price := 6 }

/-- Mempool database for the C7 witness. -/
def c7db : MempoolDB := { mempool := [c7m], ledger_tx_ids := [] }

/-- Candidate block for the C2 run: non-zero hash, `event_hash = 2`,
`state_hash = 3`. -/
def c2cand : Block :=
  { header := { hdr0 with hash := 1, event_hash := 2, state_hash := 3 }
    txs := [] }

/-- A VM verification output whose `event_hash` (99) differs from
the field in `c2cand` (2). -/
def c2vout : VerificationOutput := { state_root := 3, event_hash := 99 }

/-- Registry after a validation quorum write for `Valid 42` at
iteration 0 (used by the C1 and C5 runs). -/
def c5r1 : CertInfoRegistry :=
  (CertInfoRegistry.add_step_votes signF0 (CertInfoRegistry.new ru0) 0
    (Vote.Valid 42) svNE SvType.Validation true 99).1

/-- Embedding of `c5r1` after an additional ratification quorum write for `Valid 42`:
this call already emits a quorum message. -/
def c1r2 : CertInfoRegistry :=
  (CertInfoRegistry.add_step_votes signF0 c5r1 0 (Vote.Valid 42) svNE
    SvType.Ratification true 99).1

/-- A generator oracle answering the fixed provisioner 9. -/
def gen0 : Nat → PublicKeyBytes := fun _ => 9

/-- A ratification-quorum oracle that always reports quorum reached. -/
def rq0 : Nat → Attestation → Except Unit Bool := fun _ _ => Except.ok true

/-- A failed-iteration attestation (result `Fail`). -/
def c3att : Attestation :=
  { result := RatificationResult.Fail 0, validation := svNE
    ratification := svNE }

/-- Header with iteration 2 and one attested failed iteration, for the
C3 witness. -/
def c3hdr : BlockHeader :=
  { hdr0 with iteration := 2, failed_iterations := [some (c3att, 9)] }

/-- Header with iteration 0 and one attested failed iteration: the `u8`
subtraction `0 - 1` underflows. -/
def c3bad : BlockHeader :=
  { hdr0 with iteration := 0, failed_iterations := [some (c3att, 9)] }

/-- Local ledger header with hash 100 at height 5 (the parent the remote
block of the C4 run names). -/
def c4P : BlockHeader :=
  { hdr0 with height := 5, state_hash := 55, hash := 100 }

/-- Local block at height 6 on top of `c4P`, iteration 3. -/
def c4M : Block :=
  { header :=
      { hdr0 with
        height := 6, prev_block_hash := 100, iteration := 3, hash := 60 }
    txs := [] }

/-- Local block at height 4 whose parent (999) differs from the remote
block's parent (100). -/
def c4M4 : Block :=
  { header :=
      { hdr0 with
        height := 4, prev_block_hash := 999, iteration := 0, hash := 40 }
    txs := [] }

/-- A remote block header claiming height 4 with parent hash 100 (the
local block at height 5), iteration 1. -/
def c4remote : BlockHeader :=
  { hdr0 with
    height := 4, prev_block_hash := 100, iteration := 1, hash := 7 }

/-- The ledger view of the C4 run. -/
def c4db : LedgerView :=
  { get_block_exists := fun _ => false
    fetch_block_header := fun h => if h = 100 then some c4P else none
    fetch_block_by_height := fun n =>
      if n = 6 then some c4M else if n = 4 then some c4M4 else none }

/-! Helper lemmas -/

/-- Embedding of `add_sv` never changes the bound vote. -/
theorem CertificateInfo.add_sv_vote (c : CertificateInfo) (it : Nat)
    (sv : StepVotes) (svt : SvType) (qr : Bool) :
    ((c.add_sv it sv svt qr).1).vote = c.vote := by
  cases svt <;> rfl

/-- The boolean `add_sv` returns is `is_ready` of the updated info. -/
theorem CertificateInfo.add_sv_snd (c : CertificateInfo) (it : Nat)
    (sv : StepVotes) (svt : SvType) (qr : Bool) :
    (c.add_sv it sv svt qr).2 = ((c.add_sv it sv svt qr).1).is_ready := by
  cases svt <;> rfl

/-- Writing a non-empty step-votes into a ready certificate keeps it
ready: the quorum flags are monotone and the untouched field stays
non-empty. -/
theorem CertificateInfo.add_sv_preserves_ready (c : CertificateInfo)
    (it : Nat) (sv : StepVotes) (svt : SvType) (qr : Bool)
    (hc : c.is_ready = true) (hsv : sv.is_empty = false) :
    ((c.add_sv it sv svt qr).1).is_ready = true := by
  unfold CertificateInfo.is_ready CertificateInfo.has_votes at hc ⊢
  cases svt <;> cases qr <;> simp_all [CertificateInfo.add_sv]

/-- The full field-level description of the `add_sv` update. -/
theorem CertificateInfo.add_sv_fields (c : CertificateInfo) (it : Nat)
    (sv : StepVotes) (svt : SvType) (qr : Bool) :
    (c.add_sv it sv svt qr).1 =
      { vote := c.vote
        cert :=
          { validation :=
              match svt with
              | SvType.Validation => sv
              | SvType.Ratification => c.cert.validation
            ratification :=
              match svt with
              | SvType.Validation => c.cert.ratification
              | SvType.Ratification => sv }
        quorum_reached_validation :=
          c.quorum_reached_validation ||
            match svt with
            | SvType.Validation => qr
            | SvType.Ratification => false
        quorum_reached_ratification :=
          c.quorum_reached_ratification ||
            match svt with
            | SvType.Validation => false
            | SvType.Ratification => qr } := by
  cases svt <;> cases qr <;> simp [CertificateInfo.add_sv]

/-- Embedding of `is_ready` of the `add_sv` result, phrased over the pre-state and
the written step-votes. -/
theorem CertificateInfo.add_sv_ready_char (c : CertificateInfo) (it : Nat)
    (sv : StepVotes) (svt : SvType) (qr : Bool) :
    (((c.add_sv it sv svt qr).1).is_ready = true ↔
      ((match svt with
          | SvType.Validation => sv
          | SvType.Ratification => c.cert.validation).is_empty = false ∧
        (match svt with
          | SvType.Validation => c.cert.ratification
          | SvType.Ratification => sv).is_empty = false ∧
        (c.quorum_reached_validation ||
          match svt with
          | SvType.Validation => qr
          | SvType.Ratification => false) = true ∧
        (c.quorum_reached_ratification ||
          match svt with
          | SvType.Validation => false
          | SvType.Ratification => qr) = true)) := by
  cases svt <;> cases qr <;>
    simp [CertificateInfo.add_sv, CertificateInfo.is_ready,
      CertificateInfo.has_votes, Bool.not_eq_true', and_assoc]

/-- Embedding of `add_step_votes` unfolded on a slot accepted by `for_vote`. -/
theorem add_step_votes_eq_of_for_vote (signF : SignFn)
    (r : CertInfoRegistry) (it : Nat) (v : Vote) (sv : StepVotes)
    (svt : SvType) (qr : Bool) (g : PublicKeyBytes) (slot : Slot)
    (e₁ : IterationCerts)
    (hfv : ((r.cert_list it).getD (IterationCerts.new g)).for_vote v =
      some (slot, e₁)) :
    CertInfoRegistry.add_step_votes signF r it v sv svt qr g =
      ({ r with
          cert_list := mapInsert r.cert_list it
            (e₁.slotSet slot ((e₁.slotGet slot).add_sv it sv svt qr).1) },
        if ((e₁.slotGet slot).add_sv it sv svt qr).2 then
          some (CertInfoRegistry.build_quorum_msg signF r.ru it
            ((e₁.slotGet slot).add_sv it sv svt qr).1)
        else none) := by
  unfold CertInfoRegistry.add_step_votes
  simp only [hfv]

/-- Embedding of `add_step_votes` unfolded on a vote `for_vote` rejects: the entry is
(re)inserted untouched and no message is returned. -/
theorem add_step_votes_eq_of_reject (signF : SignFn)
    (r : CertInfoRegistry) (it : Nat) (v : Vote) (sv : StepVotes)
    (svt : SvType) (qr : Bool) (g : PublicKeyBytes)
    (hfv : ((r.cert_list it).getD (IterationCerts.new g)).for_vote v =
      none) :
    CertInfoRegistry.add_step_votes signF r it v sv svt qr g =
      ({ r with
          cert_list := mapInsert r.cert_list it
            ((r.cert_list it).getD (IterationCerts.new g)) }, none) := by
  unfold CertInfoRegistry.add_step_votes
  simp only [hfv]

/-! Claim theorems -/

/-- C8: the iteration counter's `next()` returns
`Err(MaxIterationReached)` exactly when the incremented `u8` value
reaches `CONSENSUS_MAX_ITER`; in the error case the counter is left
unchanged; iteration `MAX_ITER - 1` is the last one that runs (`next`
from `MAX_ITER - 2` succeeds with `MAX_ITER - 1`, while `next` from
`MAX_ITER - 1` fails). -/
theorem iterCounterNext_spec (maxIter c : Nat) (_hc : c < 256)
    (h2 : 2 ≤ maxIter) (h256 : maxIter < 256) :
    ((iterCounterNext maxIter c).2 =
        Except.error ConsensusError.MaxIterationReached ↔
      maxIter ≤ u8Add c 1) ∧
    (maxIter ≤ u8Add c 1 → (iterCounterNext maxIter c).1 = c) ∧
    (iterCounterNext maxIter (maxIter - 2)).2 = Except.ok (maxIter - 1) ∧
    (iterCounterNext maxIter (maxIter - 1)).2 =
      Except.error ConsensusError.MaxIterationReached := by
  refine ⟨?_, ?_, ?_, ?_⟩
  · by_cases h : maxIter ≤ u8Add c 1 <;> simp [iterCounterNext, h]
  · intro h; simp [iterCounterNext, h]
  · have h1 : u8Add (maxIter - 2) 1 = maxIter - 1 := by
      unfold u8Add; omega
    have h2' : ¬maxIter ≤ maxIter - 1 := by omega
    simp [iterCounterNext, h1, h2']
  · have h1 : u8Add (maxIter - 1) 1 = maxIter := by
      unfold u8Add; omega
    simp [iterCounterNext, h1]

/-- Witness for C8 at `CONSENSUS_MAX_ITER = 50`, counter `3`. -/
theorem iterCounterNext_spec_witness :
    (((iterCounterNext 50 3).2 =
        Except.error ConsensusError.MaxIterationReached ↔
      50 ≤ u8Add 3 1) ∧
    (50 ≤ u8Add 3 1 → (iterCounterNext 50 3).1 = 3) ∧
    (iterCounterNext 50 (50 - 2)).2 = Except.ok (50 - 1) ∧
    (iterCounterNext 50 (50 - 1)).2 =
      Except.error ConsensusError.MaxIterationReached) :=
  iterCounterNext_spec 50 3 (by decide) (by decide) (by decide)

/-- C10: `QuorumMsgSender::send` forwards the message and returns `true`
exactly when the payload is a `Quorum` with a non-zero signature, two
non-empty step-votes and a non-zero header block hash; in every other
case (in particular for a zero block hash, the `NoCandidate` outcome)
the queue is untouched and `false` is returned. -/
theorem quorumMsgSender_send_iff (queue : List Message) (msg : Message) :
    ((quorumMsgSenderSend queue msg).2 = true ↔
      ∃ q, msg.payload = Payload.Quorum q ∧ ¬q.signature = 0 ∧
        q.validation.is_empty = false ∧ q.ratification.is_empty = false ∧
        ¬msg.header.block_hash = zeroHash) ∧
    ((quorumMsgSenderSend queue msg).1 =
      if (quorumMsgSenderSend queue msg).2 then queue ++ [msg] else queue) ∧
    (msg.header.block_hash = zeroHash →
      quorumMsgSenderSend queue msg = (queue, false)) := by
  obtain ⟨hdr, payload⟩ := msg
  cases payload with
  | Quorum q =>
      by_cases h : q.signature = 0 ∨ q.validation.is_empty = true ∨
          q.ratification.is_empty = true ∨ hdr.block_hash = zeroHash
      · have hres : quorumMsgSenderSend queue ⟨hdr, Payload.Quorum q⟩ =
            (queue, false) := by
          simp [quorumMsgSenderSend, h]
        refine ⟨?_, ?_, ?_⟩
        · rw [hres]
          constructor

          · intro hcontra; exact absurd hcontra (by simp)
          · rintro ⟨q', hq', h1, h2, h3, h4⟩
            have hq2 : Payload.Quorum q = Payload.Quorum q' := hq'
            injection hq2 with hqq
            subst hqq
            rcases h with h' | h' | h' | h'
            · exact (h1 h').elim
            · rw [h'] at h2; cases h2
            · rw [h'] at h3; cases h3
            · exact (h4 h').elim
        · rw [hres]; simp
        · intro _; exact hres
      · push_neg at h
        refine ⟨?_, ?_, ?_⟩ <;>
          simp_all [quorumMsgSenderSend]
  | Validation v =>
      refine ⟨?_, ?_, ?_⟩ <;> simp [quorumMsgSenderSend]
  | Empty =>
      refine ⟨?_, ?_, ?_⟩ <;> simp [quorumMsgSenderSend]

/-- C9: proposal-phase verification of a Candidate message succeeds
exactly when the generator signature verifies, the wire header's
`prev_block_hash` matches the candidate header's, the candidate's
`txroot` is the merkle root of its transaction hashes, and the declared
generator is the elected Proposal-committee member; the first failing
check yields the corresponding `ConsensusError`, so the message is
rejected and not collected. -/
theorem verifyNewBlock_checks (sigOk : CandidatePayload → Bool)
    (merkleRoot : List Hash → Hash) (isMember : PublicKeyBytes → Bool)
    (msg : ProposalMessage) (p : CandidatePayload)
    (hp : msg.payload = ProposalPayload.Candidate p) :
    (verify_new_block sigOk merkleRoot isMember msg = Except.ok () ↔
      (sigOk p = true ∧
        msg.prev_block_hash = p.candidate.header.prev_block_hash ∧
        merkleRoot (p.candidate.txs.map (·.id)) = p.candidate.header.txroot ∧
        isMember msg.pubkey_bls = true)) ∧
    (sigOk p = false →
      verify_new_block sigOk merkleRoot isMember msg =
        Except.error ConsensusError.InvalidSignature) ∧
    (sigOk p = true →
      ¬msg.prev_block_hash = p.candidate.header.prev_block_hash →
      verify_new_block sigOk merkleRoot isMember msg =
        Except.error ConsensusError.InvalidBlockHash) ∧
    (sigOk p = true →
      msg.prev_block_hash = p.candidate.header.prev_block_hash →
      ¬merkleRoot (p.candidate.txs.map (·.id)) = p.candidate.header.txroot →
      verify_new_block sigOk merkleRoot isMember msg =
        Except.error ConsensusError.InvalidBlock) ∧
    (sigOk p = true →
      msg.prev_block_hash = p.candidate.header.prev_block_hash →
      merkleRoot (p.candidate.txs.map (·.id)) = p.candidate.header.txroot →
      isMember msg.pubkey_bls = false →
      verify_new_block sigOk merkleRoot isMember msg =
        Except.error ConsensusError.NotCommitteeMember) := by
  unfold verify_new_block
  rw [hp]
  by_cases h1 : sigOk p = true
  · by_cases h2 : msg.prev_block_hash = p.candidate.header.prev_block_hash
    · by_cases h3 : merkleRoot (p.candidate.txs.map (·.id)) =
          p.candidate.header.txroot
      · by_cases h4 : isMember msg.pubkey_bls = true
        · simp [h1, h2, h3, h4]
        · simp [h1, h2, h3, h4]
      · simp [h1, h2, h3]
    · simp [h1, h2]
  · simp [h1]

/-- Witness for C9: a candidate message passing all four checks is
accepted. -/
theorem verifyNewBlock_checks_witness :
    (verify_new_block (fun _ => true) (fun l => l.length) (fun _ => true)
        c9msg = Except.ok () ↔
      ((fun (_ : CandidatePayload) => true) c9p = true ∧
        c9msg.prev_block_hash = c9p.candidate.header.prev_block_hash ∧
        (fun (l : List Hash) => l.length) (c9p.candidate.txs.map (·.id)) =
          c9p.candidate.header.txroot ∧
        (fun (_ : PublicKeyBytes) => true) c9msg.pubkey_bls = true)) :=
  (verifyNewBlock_checks (fun _ => true) (fun l => l.length) (fun _ => true)
      c9msg c9p rfl).1

/-- C7: in `accept_tx`, once the count, duplicate, ledger and preverify
checks pass and a single incumbent mempool transaction shares a spend-id
with the new transaction, the new transaction is persisted and the
incumbent deleted — emitting `Removed` for the incumbent and `Included`
for the new one — exactly when the new gas price is strictly greater
than the incumbent's; otherwise `SpendIdExistsInMempool` is returned and
nothing is persisted. -/
theorem acceptTx_gas_price_replacement (preverify : Transaction → Bool)
    (maxCount : Nat) (db : MempoolDB) (tx m : Transaction)
    (hcount : db.mempool.length < maxCount)
    (hdup : db.mempool.any (fun t => t.id = tx.id) = false)
    (hledger : db.ledger_tx_ids.contains tx.id = false)
    (hpre : preverify tx = true)
    (hconf : db.get_txs_by_spendable_ids tx.spend_ids = [m.id])
    (hget : db.get_tx m.id = some m) :
    (m.gas_price < tx.gas_price →
      accept_tx preverify maxCount db tx =
        Except.ok
          ({ mempool := db.mempool.filter (fun t => ¬t.id = m.id) ++ [tx]
             ledger_tx_ids := db.ledger_tx_ids },
            [TxEvent.Removed m.id, TxEvent.Included tx.id])) ∧
    (tx.gas_price ≤ m.gas_price →
      accept_tx preverify maxCount db tx =
        Except.error TxAcceptanceError.SpendIdExistsInMempool) := by
  have hmem : m ∈ db.mempool := List.mem_of_find?_eq_some hget
  have hany : db.mempool.any (fun t => t.id = m.id) = true := by
    rw [List.any_eq_true]
    exact ⟨m, hmem, by simp⟩
  have hnotle : ¬maxCount ≤ db.mempool.length := Nat.not_le.mpr hcount
  constructor
  · intro hgas
    simp only [accept_tx, hnotle, hdup, hledger, hpre, hconf, if_false,
      Bool.false_eq_true, not_true_eq_false, ite_false, ite_true]
    simp [spendIdLoop, hget, hgas, MempoolDB.delete_tx, hany]
  · intro hgas
    have hgas' : ¬m.gas_price < tx.gas_price := Nat.not_lt.mpr hgas
    simp only [accept_tx, hnotle, hdup, hledger, hpre, hconf, if_false,
      Bool.false_eq_true, not_true_eq_false, ite_false, ite_true]
    simp [spendIdLoop, hget, hgas']

/-- Witness for C7 at a one-incumbent mempool. -/
theorem acceptTx_gas_price_replacement_witness :
    (c7m.gas_price < c7tx.gas_price →
      accept_tx (fun _ => true) 10 c7db c7tx =
        Except.ok
          ({ mempool := c7db.mempool.filter (fun t => ¬t.id = c7m.id) ++ [c7tx]
             ledger_tx_ids := c7db.ledger_tx_ids },
            [TxEvent.Removed c7m.id, TxEvent.Included c7tx.id])) ∧
    (c7tx.gas_price ≤ c7m.gas_price →
      accept_tx (fun _ => true) 10 c7db c7tx =
        Except.error TxAcceptanceError.SpendIdExistsInMempool) :=
  acceptTx_gas_price_replacement (fun _ => true) 10 c7db c7tx c7m
    (by decide) (by decide) (by decide) (by decide) (by decide) (by decide)

/-- C2 counterexample: for a candidate block with non-zero hash (1)
whose `event_hash` (2) differs from the one returned by
`verify_state_transition` (99), the vote-casting task produces no
message at all — in particular no `NoCandidate` vote with a zero block
hash is signed, published or self-delivered — and leaves the verified
hash untouched, falsifying the claim that a `NoCandidate` vote is cast
on a VST mismatch. -/
theorem spawnCastVote_vst_mismatch_counterexample :
    spawnCastVoteTask hdrSign0 0 c2cand 7 ru0 1 Topics.Validation true
        (Except.ok c2vout) = (0, none) ∧
    ¬c2cand.header.hash = zeroHash ∧
    ¬c2vout.event_hash = c2cand.header.event_hash := by
  refine ⟨by rfl, by decide, by decide⟩

/-- C2 amended: when the candidate hash is non-zero and not yet
verified, a VST error or a mismatch of `event_hash` or `state_root`
makes the vote-casting task return early without casting any vote and
without updating the round's verified hash. -/
theorem spawnCastVote_no_vote_on_vst_failure
    (hdrSign : SecretKey → MsgHeader → Nat) (vh : Hash) (cand : Block)
    (pk : PublicKeyBytes) (ru : RoundUpdate) (step : Nat) (topic : Topics)
    (vst : Except Unit VerificationOutput)
    (hv : ¬vh = cand.header.hash) (hz : ¬cand.header.hash = zeroHash)
    (hbad : vstRejects cand vst) :
    spawnCastVoteTask hdrSign vh cand pk ru step topic true vst =
      (vh, none) := by
  cases vst with
  | error e =>
      simp [spawnCastVoteTask, hv, hz]
  | ok vo =>
      unfold vstRejects at hbad
      by_cases he : vo.event_hash = cand.header.event_hash
      · have hs : ¬vo.state_root = cand.header.state_hash := by
          rcases hbad with h | h
          · exact absurd he h
          · exact h
        simp [spawnCastVoteTask, hv, hz, he, hs]
      · simp [spawnCastVoteTask, hv, hz, he]

/-- Witness for the amended C2 at the concrete mismatching run. -/
theorem spawnCastVote_no_vote_on_vst_failure_witness :
    spawnCastVoteTask hdrSign0 0 c2cand 7 ru0 1 Topics.Validation true
        (Except.ok c2vout) = (0, none) :=
  spawnCastVote_no_vote_on_vst_failure hdrSign0 0 c2cand 7 ru0 1
    Topics.Validation (Except.ok c2vout) (by decide) (by decide)
    (Or.inl (by decide))

/-- A successful `vfiLoop` run returns the accumulator plus the number
of populated quorum-reaching slots, wrapped at 256. -/
theorem vfiLoop_ok_count (gen : Nat → PublicKeyBytes)
    (rq : Nat → Attestation → Except Unit Bool)
    (l : List (Option (Attestation × PublicKeyBytes))) :
    ∀ idx fa fa', fa < 256 →
      vfiLoop gen rq idx fa l = Except.ok fa' →
      fa' = (fa + quorumCount rq idx l) % 256 := by
  induction l with
  | nil =>
      intro idx fa fa' hfa h
      simp only [vfiLoop, Except.ok.injEq] at h
      subst h
      simp [quorumCount, Nat.mod_eq_of_lt hfa]
  | cons hd rest ih =>
      intro idx fa fa' hfa h
      cases hd with
      | none =>
          simp only [vfiLoop] at h
          simpa [quorumCount] using ih (idx + 1) fa fa' hfa h
      | some attpk =>
          obtain ⟨att, pk⟩ := attpk
          simp only [vfiLoop] at h
          by_cases hs : att.result.isSuccess = true
          · rw [if_pos hs] at h; simp at h
          · rw [if_neg hs] at h
            by_cases hpk : pk = gen idx
            · rw [if_neg (by simp [hpk])] at h
              cases hrq : rq idx att with
              | error e => rw [hrq] at h; simp at h
              | ok reached =>
                  rw [hrq] at h
                  cases reached with
                  | false =>
                      simp only [if_neg (by simp : ¬false = true)] at h
                      have := ih (idx + 1) fa fa' hfa h
                      simp [quorumCount, hrq, this]
                  | true =>
                      simp only [if_pos rfl] at h
                      have hfa2 : u8Add fa 1 < 256 := by
                        unfold u8Add; omega
                      have hrec := ih (idx + 1) (u8Add fa 1) fa' hfa2 h
                      rw [hrec]
                      simp only [quorumCount, hrq, u8Add]
                      rw [Nat.mod_add_mod]
                      congr 1
                      omega
            · rw [if_pos hpk] at h; simp at h

/-- C3 counterexample: for a header at iteration 0 carrying one
populated failed-iteration slot that verifies and reaches ratification
quorum, `verify_failed_iterations` returns 255 — the `u8` subtraction
`0 - 1` underflows, so the returned PNI is neither
`iteration − failed_atts` nor non-negative as an integer. -/
theorem verifyFailedIterations_underflow_counterexample :
    verify_failed_iterations gen0 rq0 c3bad = Except.ok 255 ∧
    quorumCount rq0 0 c3bad.failed_iterations = 1 ∧
    c3bad.iteration = 0 ∧
    ¬((255 : Int) = (c3bad.iteration : Int) -
        (quorumCount rq0 0 c3bad.failed_iterations : Int)) := by
  refine ⟨by rfl, by rfl, by rfl, by decide⟩

/-- C3 amended: whenever `verify_failed_iterations` succeeds and the
number of populated quorum-reaching failed-iteration slots does not
exceed `block.iteration`, the returned PNI equals
`block.iteration − failed_atts` and is non-negative; the `u8`
subtraction is unguarded and wraps otherwise. -/
theorem verifyFailedIterations_pni (gen : Nat → PublicKeyBytes)
    (rq : Nat → Attestation → Except Unit Bool) (hdr : BlockHeader)
    (pni : Nat) (hit : hdr.iteration < 256)
    (hok : verify_failed_iterations gen rq hdr = Except.ok pni)
    (hle : quorumCount rq 0 hdr.failed_iterations ≤ hdr.iteration) :
    (pni : Int) = (hdr.iteration : Int) -
        (quorumCount rq 0 hdr.failed_iterations : Int) ∧
      0 ≤ (pni : Int) := by
  unfold verify_failed_iterations at hok
  cases hloop : vfiLoop gen rq 0 0 hdr.failed_iterations with
  | error e => rw [hloop] at hok; simp at hok
  | ok fa =>
      rw [hloop] at hok
      simp only [Except.ok.injEq] at hok
      have hfa := vfiLoop_ok_count gen rq hdr.failed_iterations 0 0 fa
        (by omega) hloop
      subst hok
      unfold u8Sub
      constructor <;> omega

/-- Witness for the amended C3 at a two-iteration header with one
attested failed iteration: PNI = 2 − 1 = 1. -/
theorem verifyFailedIterations_pni_witness :
    ((1 : Int) = (c3hdr.iteration : Int) -
        (quorumCount rq0 0 c3hdr.failed_iterations : Int) ∧
      0 ≤ ((1 : Nat) : Int)) :=
  verifyFailedIterations_pni gen0 rq0 c3hdr 1 (by decide) (by rfl)
    (by decide)

/-- C4 counterexample: a remote block at height 4 (below the local tip
at 10, above the last finalized height 2, not in the ledger) triggers a
fallback attempt although the only local block at height 4 neither
shares the remote's `prev_block_hash` nor has a greater iteration: the
code locates the comparison block at `prev.height + 1 = 6` from the
remote's parent hash, not at the remote's own height, and never compares
its `prev_block_hash`. -/
theorem insyncBelowTip_height_counterexample :
    insyncBelowTipFallback c4db 2 c4remote = some (c4M.header, 55) ∧
    c4remote.height < 10 ∧ 2 < c4remote.height ∧
    c4db.fetch_block_by_height c4remote.height = some c4M4 ∧
    ¬(c4M4.header.prev_block_hash = c4remote.prev_block_hash ∧
        c4remote.iteration < c4M4.header.iteration) := by
  refine ⟨by rfl, by decide, by decide, by rfl, by decide⟩

/-- C4 amended: in the InSync below-tip branch, a fallback is attempted
if and only if the remote block is not in the ledger, its height is
strictly above the last finalized height, its `prev_block_hash` resolves
to a local header `prev`, and the local block at height
`prev.height + 1` has a strictly greater iteration than the remote
block; the fallback reverts to `prev.state_hash` and compares against
that local block.  In every other case the block is ignored. -/
theorem insyncBelowTip_fallback_iff (db : LedgerView) (fh : Nat)
    (remote : BlockHeader) (mh : BlockHeader) (sh : Hash) :
    insyncBelowTipFallback db fh remote = some (mh, sh) ↔
      (db.get_block_exists remote.hash = false ∧
        fh < remote.height ∧
        ∃ prev, db.fetch_block_header remote.prev_block_hash = some prev ∧
          sh = prev.state_hash ∧
          ∃ b, db.fetch_block_by_height (prev.height + 1) = some b ∧
            mh = b.header ∧ remote.iteration < b.header.iteration) := by
  constructor
  · intro h
    by_cases h1 : db.get_block_exists remote.hash = true
    · simp [insyncBelowTipFallback, h1] at h
    · by_cases h2 : remote.height ≤ fh
      · simp [insyncBelowTipFallback, h1, h2] at h
      · cases hprev : db.fetch_block_header remote.prev_block_hash with
        | none => simp [insyncBelowTipFallback, h1, h2, hprev] at h
        | some prev =>
            cases hb : db.fetch_block_by_height (prev.height + 1) with
            | none => simp [insyncBelowTipFallback, h1, h2, hprev, hb] at h
            | some b =>
                by_cases hit : remote.iteration < b.header.iteration
                · simp [insyncBelowTipFallback, h1, h2, hprev, hb, hit] at h
                  obtain ⟨hmh, hsh⟩ := h
                  exact ⟨by simpa using h1, Nat.not_le.mp h2, prev, rfl,
                    hsh.symm, b, hb, hmh.symm, hit⟩
                · simp [insyncBelowTipFallback, h1, h2, hprev, hb, hit] at h
  · rintro ⟨h1, h2, prev, hprev, hsh, b, hb, hmh, hit⟩
    subst hmh
    subst hsh
    simp [insyncBelowTipFallback, h1, Nat.not_le.mpr h2, hprev, hb, hit]

/-- C6: a call to `add_step_votes` that is not rejected for a mismatched
vote target returns a quorum message exactly when, after writing the
given step-votes into the selected slot, both quorum flags are set and
both step-votes fields of that slot are non-empty; the returned message
is the freshly signed Quorum carrying the consensus header, the slot's
stored vote and its validation and ratification step-votes. -/
theorem addStepVotes_quorum_iff_ready (signF : SignFn)
    (r : CertInfoRegistry) (it : Nat) (v : Vote) (sv : StepVotes)
    (svt : SvType) (qr : Bool) (g : PublicKeyBytes) (slot : Slot)
    (e₁ : IterationCerts)
    (hfv : ((r.cert_list it).getD (IterationCerts.new g)).for_vote v =
      some (slot, e₁)) :
    (((CertInfoRegistry.add_step_votes signF r it v sv svt qr g).2).isSome
        = true ↔
      ((match svt with
          | SvType.Validation => sv
          | SvType.Ratification =>
              (e₁.slotGet slot).cert.validation).is_empty = false ∧
        (match svt with
          | SvType.Validation => (e₁.slotGet slot).cert.ratification
          | SvType.Ratification => sv).is_empty = false ∧
        ((e₁.slotGet slot).quorum_reached_validation ||
          match svt with
          | SvType.Validation => qr
          | SvType.Ratification => false) = true ∧
        ((e₁.slotGet slot).quorum_reached_ratification ||
          match svt with
          | SvType.Validation => false
          | SvType.Ratification => qr) = true)) ∧
    (∀ m, (CertInfoRegistry.add_step_votes signF r it v sv svt qr g).2 =
        some m →
      m = Message.new_quorum
        { header := quorumHeader r.ru it
          vote := (e₁.slotGet slot).vote
          validation :=
            match svt with
            | SvType.Validation => sv
            | SvType.Ratification => (e₁.slotGet slot).cert.validation
          ratification :=
            match svt with
            | SvType.Validation => (e₁.slotGet slot).cert.ratification
            | SvType.Ratification => sv
          signature :=
            signF r.ru.secret_key (quorumHeader r.ru it)
              (e₁.slotGet slot).vote
              (match svt with
                | SvType.Validation => sv
                | SvType.Ratification => (e₁.slotGet slot).cert.validation)
              (match svt with
                | SvType.Validation => (e₁.slotGet slot).cert.ratification
                | SvType.Ratification => sv) }) := by
  rw [add_step_votes_eq_of_for_vote signF r it v sv svt qr g slot e₁ hfv]
  have hsnd := CertificateInfo.add_sv_snd (e₁.slotGet slot) it sv svt qr
  have hchar := CertificateInfo.add_sv_ready_char (e₁.slotGet slot) it sv
    svt qr
  have hfields := CertificateInfo.add_sv_fields (e₁.slotGet slot) it sv
    svt qr
  constructor
  · cases hready : ((e₁.slotGet slot).add_sv it sv svt qr).2 with
    | false =>
        rw [hready] at hsnd
        simp only [hready, if_false, Bool.false_eq_true, ite_false,
          Option.isSome_none, Bool.false_eq_true]
        rw [← hchar, ← hsnd]
        simp
    | true =>
        rw [hready] at hsnd
        simp only [hready, if_true, ite_true, Option.isSome_some,
          true_iff]
        rw [← hchar, ← hsnd]
  · intro m hm
    cases hready : ((e₁.slotGet slot).add_sv it sv svt qr).2 with
    | false => rw [hready] at hm; simp at hm
    | true =>
        rw [hready] at hm
        simp only [if_true, ite_true, Option.some.injEq] at hm
        subst hm
        unfold CertInfoRegistry.build_quorum_msg
        rw [hfields]

/-- Witness for C6: a validation write into a fresh nil slot returns no
quorum message, matching the characterization (the ratification field of
the fresh slot is still empty). -/
theorem addStepVotes_quorum_iff_ready_witness :
    (((CertInfoRegistry.add_step_votes signF0 (CertInfoRegistry.new ru0) 0
          Vote.NoCandidate svNE SvType.Validation true 99).2).isSome
        = true ↔
      (svNE.is_empty = false ∧
        ((IterationCerts.new 99).slotGet
            Slot.nilSlot).cert.ratification.is_empty = false ∧
        (((IterationCerts.new 99).slotGet
            Slot.nilSlot).quorum_reached_validation || true) = true ∧
        (((IterationCerts.new 99).slotGet
            Slot.nilSlot).quorum_reached_ratification || false) = true)) :=
  (addStepVotes_quorum_iff_ready signF0 (CertInfoRegistry.new ru0) 0
    Vote.NoCandidate svNE SvType.Validation true 99 Slot.nilSlot
    (IterationCerts.new 99) (by rfl)).1

/-- Embedding of `mapInsert` reads back the inserted entry at its key. -/
theorem mapInsert_self (m : Nat → Option IterationCerts) (k : Nat)
    (v : IterationCerts) : mapInsert m k v k = some v := by
  simp [mapInsert]

/-- C5: the `valid` slot of an iteration entry is bound to the first
non-nil vote passed to `add_step_votes`; a later call with a different
non-nil vote returns nothing and leaves the entry (vote, certificate and
quorum flags) unchanged; a `NoCandidate` vote is routed to the `nil`
slot, leaving the `valid` slot untouched while the nil certificate
receives the write. -/
theorem validSlot_first_vote_binding (signF : SignFn)
    (r : CertInfoRegistry) (it : Nat) (v₁ v₂ : Vote)
    (sv₁ sv₂ sv₃ : StepVotes) (svt₁ svt₂ svt₃ : SvType)
    (qr₁ qr₂ qr₃ : Bool) (g₁ g₂ g₃ : PublicKeyBytes)
    (r₁ : CertInfoRegistry) (o₁ : Option Message)
    (h₁ : ¬v₁ = Vote.NoCandidate)
    (h₂ : ((r.cert_list it).getD (IterationCerts.new g₁)).valid = none)
    (h₃ : ¬v₂ = Vote.NoCandidate) (h₄ : ¬v₂ = v₁)
    (hr₁ : CertInfoRegistry.add_step_votes signF r it v₁ sv₁ svt₁ qr₁ g₁ =
      (r₁, o₁)) :
    ((r₁.cert_list it).bind (fun e => e.valid)).map (fun c => c.vote) =
        some v₁ ∧
    (CertInfoRegistry.add_step_votes signF r₁ it v₂ sv₂ svt₂ qr₂ g₂).2 =
        none ∧
    ((CertInfoRegistry.add_step_votes signF r₁ it v₂ sv₂ svt₂ qr₂
        g₂).1).cert_list it = r₁.cert_list it ∧
    ((((CertInfoRegistry.add_step_votes signF r₁ it Vote.NoCandidate sv₃
        svt₃ qr₃ g₃).1).cert_list it).bind (fun e => e.valid)) =
      ((r₁.cert_list it).bind (fun e => e.valid)) ∧
    (((CertInfoRegistry.add_step_votes signF r₁ it Vote.NoCandidate sv₃
        svt₃ qr₃ g₃).1).cert_list it).map (fun e => e.nil) =
      (r₁.cert_list it).map (fun e => (e.nil.add_sv it sv₃ svt₃ qr₃).1) := by
  set e : IterationCerts := (r.cert_list it).getD (IterationCerts.new g₁)
    with he
  set c₀ : CertificateInfo := { (default : CertificateInfo) with vote := v₁ }
    with hc₀
  set e' : IterationCerts := { e with valid := some c₀ } with he'
  have hfv₁ : e.for_vote v₁ = some (Slot.validSlot, e') := by
    unfold IterationCerts.for_vote
    rw [if_neg h₁, h₂]
  have heq := add_step_votes_eq_of_for_vote signF r it v₁ sv₁ svt₁ qr₁ g₁ _
    _ hfv₁
  rw [heq] at hr₁
  set c₁ : CertificateInfo :=
    ((e'.slotGet Slot.validSlot).add_sv it sv₁ svt₁ qr₁).1 with hc₁
  set e₂ : IterationCerts := e'.slotSet Slot.validSlot c₁ with he₂
  have hr₁' : r₁.cert_list = mapInsert r.cert_list it e₂ :=
    (congrArg (fun p => p.1.cert_list) hr₁).symm
  have hlist : r₁.cert_list it = some e₂ := by
    rw [hr₁']; exact mapInsert_self _ _ _
  have hget : e'.slotGet Slot.validSlot = c₀ := rfl
  have hvote : c₁.vote = v₁ := by
    rw [hc₁, CertificateInfo.add_sv_vote, hget]
  have hvalid₂ : e₂.valid = some c₁ := rfl
  have hfv₂ : ((r₁.cert_list it).getD
      (IterationCerts.new g₂)).for_vote v₂ = none := by
    rw [hlist]
    show e₂.for_vote v₂ = none
    unfold IterationCerts.for_vote
    rw [if_neg h₃, hvalid₂]
    simp only []
    rw [if_neg]
    rw [hvote]
    exact fun hh => h₄ hh.symm
  have hfv₃ : ((r₁.cert_list it).getD
      (IterationCerts.new g₃)).for_vote Vote.NoCandidate =
      some (Slot.nilSlot,
        (r₁.cert_list it).getD (IterationCerts.new g₃)) := by
    unfold IterationCerts.for_vote
    rw [if_pos rfl]
  refine ⟨?_, ?_, ?_, ?_, ?_⟩
  · rw [hlist]
    show (e₂.valid).map (fun c => c.vote) = some v₁
    rw [hvalid₂]
    simp [hvote]
  · rw [add_step_votes_eq_of_reject signF r₁ it v₂ sv₂ svt₂ qr₂ g₂ hfv₂]
  · rw [add_step_votes_eq_of_reject signF r₁ it v₂ sv₂ svt₂ qr₂ g₂ hfv₂]
    show mapInsert r₁.cert_list it
      ((r₁.cert_list it).getD (IterationCerts.new g₂)) it =
        r₁.cert_list it
    rw [mapInsert_self, hlist]
    rfl
  · rw [add_step_votes_eq_of_for_vote signF r₁ it Vote.NoCandidate sv₃ svt₃
      qr₃ g₃ _ _ hfv₃]
    show (mapInsert r₁.cert_list it _ it).bind (fun e => e.valid) = _
    rw [mapInsert_self, hlist]
    rfl
  · rw [add_step_votes_eq_of_for_vote signF r₁ it Vote.NoCandidate sv₃ svt₃
      qr₃ g₃ _ _ hfv₃]
    show (mapInsert r₁.cert_list it _ it).map (fun e => e.nil) = _
    rw [mapInsert_self, hlist]
    rfl

/-- Witness for C5 at a fresh iteration entry: `Valid 42` binds the
valid slot, `Valid 43` is rejected without touching the entry, and a
`NoCandidate` write lands in the nil slot. -/
theorem validSlot_first_vote_binding_witness :
    ((c5r1.cert_list 0).bind (fun e => e.valid)).map (fun c => c.vote) =
        some (Vote.Valid 42) ∧
    (CertInfoRegistry.add_step_votes signF0 c5r1 0 (Vote.Valid 43) svNE
        SvType.Ratification true 99).2 = none ∧
    ((CertInfoRegistry.add_step_votes signF0 c5r1 0 (Vote.Valid 43) svNE
        SvType.Ratification true 99).1).cert_list 0 = c5r1.cert_list 0 ∧
    ((((CertInfoRegistry.add_step_votes signF0 c5r1 0 Vote.NoCandidate
        svNE SvType.Validation true 99).1).cert_list 0).bind
        (fun e => e.valid)) =
      ((c5r1.cert_list 0).bind (fun e => e.valid)) ∧
    (((CertInfoRegistry.add_step_votes signF0 c5r1 0 Vote.NoCandidate svNE
        SvType.Validation true 99).1).cert_list 0).map (fun e => e.nil) =
      (c5r1.cert_list 0).map
        (fun e => (e.nil.add_sv 0 svNE SvType.Validation true).1) :=
  validSlot_first_vote_binding signF0 (CertInfoRegistry.new ru0) 0
    (Vote.Valid 42) (Vote.Valid 43) svNE svNE svNE SvType.Validation
    SvType.Ratification SvType.Validation true true true 99 99 99 c5r1
    ((CertInfoRegistry.add_step_votes signF0 (CertInfoRegistry.new ru0) 0
      (Vote.Valid 42) svNE SvType.Validation true 99).2)
    (by decide) (by rfl) (by decide) (by decide) rfl

/-- Inversion of `IterationCerts::for_vote`: a `NoCandidate` vote picks
the nil slot and leaves the entry untouched; a non-nil vote picks the
valid slot, which then holds a certificate bound to exactly that vote
(the nil side untouched). -/
theorem for_vote_inv (ic : IterationCerts) (v : Vote) (slot : Slot)
    (e₁ : IterationCerts) (h : ic.for_vote v = some (slot, e₁)) :
    (v = Vote.NoCandidate ∧ slot = Slot.nilSlot ∧ e₁ = ic) ∨
    (¬v = Vote.NoCandidate ∧ slot = Slot.validSlot ∧
      ∃ c, e₁.valid = some c ∧ c.vote = v ∧ e₁.nil = ic.nil) := by
  unfold IterationCerts.for_vote at h
  by_cases hv : v = Vote.NoCandidate
  · rw [if_pos hv] at h
    simp only [Option.some.injEq, Prod.mk.injEq] at h
    exact Or.inl ⟨hv, h.1.symm, h.2.symm⟩
  · rw [if_neg hv] at h
    right
    cases hic : ic.valid with
    | none =>
        rw [hic] at h
        simp only [Option.some.injEq, Prod.mk.injEq] at h
        refine ⟨hv, h.1.symm, { (default : CertificateInfo) with vote := v },
          ?_, rfl, ?_⟩
        · rw [← h.2]
        · rw [← h.2]
    | some cert =>
        simp only [hic] at h
        by_cases hcv : cert.vote = v
        · rw [if_pos hcv] at h
          simp only [Option.some.injEq, Prod.mk.injEq] at h
          exact ⟨hv, h.1.symm, cert, by rw [← h.2, hic], hcv, by rw [← h.2]⟩
        · rw [if_neg hcv] at h
          simp at h

/-- C1 counterexample: after a validation and a ratification quorum
write for `(iteration 0, Valid 42)` have already produced a Quorum
message, repeating the same ratification write returns a second Quorum
message for the same iteration and vote — `add_step_votes` does not
limit emission to once per vote-target. -/
theorem addStepVotes_two_quorums_counterexample :
    (CertInfoRegistry.add_step_votes signF0 c5r1 0 (Vote.Valid 42) svNE
        SvType.Ratification true 99).2.isSome = true ∧
    (CertInfoRegistry.add_step_votes signF0 c1r2 0 (Vote.Valid 42) svNE
        SvType.Ratification true 99).2.isSome = true := by
  refine ⟨by rfl, by rfl⟩

/-- C1 amended: once `add_step_votes` has returned a Quorum message for
`(iteration, vote)`, a later call for the same iteration and vote
returns another Quorum message whenever the step-votes it writes are
non-empty — emission is once per ready write, not at most once per
vote-target. -/
theorem addStepVotes_reemits_quorum (signF : SignFn)
    (r : CertInfoRegistry) (it : Nat) (v : Vote) (sv₁ sv₂ : StepVotes)
    (svt₁ svt₂ : SvType) (qr₁ qr₂ : Bool) (g₁ g₂ : PublicKeyBytes)
    (r' : CertInfoRegistry) (m : Message)
    (h₁ : CertInfoRegistry.add_step_votes signF r it v sv₁ svt₁ qr₁ g₁ =
      (r', some m))
    (h₂ : sv₂.is_empty = false) :
    ((CertInfoRegistry.add_step_votes signF r' it v sv₂ svt₂ qr₂
      g₂).2).isSome = true := by
  cases hfv : ((r.cert_list it).getD (IterationCerts.new g₁)).for_vote v
    with
  | none =>
      rw [add_step_votes_eq_of_reject signF r it v sv₁ svt₁ qr₁ g₁ hfv]
        at h₁
      rw [Prod.mk.injEq] at h₁
      exact absurd h₁.2 (by simp)
  | some pair =>
      obtain ⟨slot, e₁⟩ := pair
      rw [add_step_votes_eq_of_for_vote signF r it v sv₁ svt₁ qr₁ g₁ slot
        e₁ hfv] at h₁
      rw [Prod.mk.injEq] at h₁
      obtain ⟨hfst, hsnd⟩ := h₁
      have hready : ((e₁.slotGet slot).add_sv it sv₁ svt₁ qr₁).2 = true := by
        by_contra hc
        rw [Bool.not_eq_true] at hc
        rw [hc] at hsnd
        simp at hsnd
      have hready1 :
          ((e₁.slotGet slot).add_sv it sv₁ svt₁ qr₁).1.is_ready = true := by
        rw [← CertificateInfo.add_sv_snd]
        exact hready
      have hlist : r'.cert_list it =
          some (e₁.slotSet slot
            ((e₁.slotGet slot).add_sv it sv₁ svt₁ qr₁).1) := by
        rw [← hfst]
        exact mapInsert_self _ _ _
      rcases for_vote_inv _ _ _ _ hfv with ⟨hv, hslot, _⟩ |
        ⟨hv, hslot, c, hc, hcv, _⟩
      · subst hv
        subst hslot
        have hfv₂ : ((r'.cert_list it).getD
            (IterationCerts.new g₂)).for_vote Vote.NoCandidate =
            some (Slot.nilSlot,
              (r'.cert_list it).getD (IterationCerts.new g₂)) := by
          unfold IterationCerts.for_vote
          rw [if_pos rfl]
        rw [add_step_votes_eq_of_for_vote signF r' it Vote.NoCandidate sv₂
          svt₂ qr₂ g₂ _ _ hfv₂]
        have hget₂ : ((r'.cert_list it).getD
            (IterationCerts.new g₂)).slotGet Slot.nilSlot =
            ((e₁.slotGet Slot.nilSlot).add_sv it sv₁ svt₁ qr₁).1 := by
          rw [hlist]
          rfl
        simp only [hget₂]
        rw [CertificateInfo.add_sv_snd,
          CertificateInfo.add_sv_preserves_ready _ _ _ _ _ hready1 h₂]
        rfl
      · subst hslot
        have hvres :
            ((e₁.slotGet Slot.validSlot).add_sv it sv₁ svt₁ qr₁).1.vote =
              v := by
          rw [CertificateInfo.add_sv_vote]
          show (e₁.valid.getD default).vote = v
          rw [hc]
          exact hcv
        have hval : ((some (IterationCerts.slotSet e₁ Slot.validSlot
            ((e₁.slotGet Slot.validSlot).add_sv it sv₁ svt₁
              qr₁).1)).getD (IterationCerts.new g₂)).valid =
            some ((e₁.slotGet Slot.validSlot).add_sv it sv₁ svt₁ qr₁).1 :=
          rfl
        have hfv₂ : ((r'.cert_list it).getD
            (IterationCerts.new g₂)).for_vote v =
            some (Slot.validSlot,
              (r'.cert_list it).getD (IterationCerts.new g₂)) := by
          rw [hlist]
          unfold IterationCerts.for_vote
          rw [if_neg hv]
          simp only [hval]
          rw [if_pos hvres]
        rw [add_step_votes_eq_of_for_vote signF r' it v sv₂ svt₂ qr₂ g₂ _
          _ hfv₂]
        have hget₂ : ((r'.cert_list it).getD
            (IterationCerts.new g₂)).slotGet Slot.validSlot =
            ((e₁.slotGet Slot.validSlot).add_sv it sv₁ svt₁ qr₁).1 := by
          rw [hlist]
          rfl
        simp only [hget₂]
        rw [CertificateInfo.add_sv_snd,
          CertificateInfo.add_sv_preserves_ready _ _ _ _ _ hready1 h₂]
        rfl

/-- Witness for the amended C1: the concrete registry of the
counterexample, where the repeated ratification write re-emits. -/
theorem addStepVotes_reemits_quorum_witness :
    ((CertInfoRegistry.add_step_votes signF0 c1r2 0 (Vote.Valid 42) svNE
      SvType.Ratification true 99).2).isSome = true :=
  addStepVotes_reemits_quorum signF0 c5r1 0 (Vote.Valid 42) svNE svNE
    SvType.Ratification SvType.Ratification true true 99 99 c1r2
    ((CertInfoRegistry.add_step_votes signF0 c5r1 0 (Vote.Valid 42) svNE
      SvType.Ratification true 99).2.getD
      (Message.new_quorum
        { header := quorumHeader ru0 0, vote := Vote.Valid 42
          validation := svNE, ratification := svNE, signature := 1 }))
    (by rfl) (by decide)

end Rusk
